import Mathlib

/-!
Shallow embedding of `pretty-logging` (src/src/lib.rs), a sink for the Rust
`log` facade: a `Logger` holding a module-filter list and a channel sender,
a consumer thread draining the channel and writing lines to stdout/stderr,
an `init` function registering the logger once and installing a panic hook,
and pure formatting helpers (`get_formatted_level`).

External collaborators are modelled as the spec directs:
  * wall-clock time (`get_formatted_timestamp`) is impure, so formatted
    timestamps enter the model as an explicit `ts : String` parameter;
  * the `colored` styling library is a pure string-styling function: a
    `Style` tag plus a `render` into ANSI-escaped text;
  * the mpsc channel is represented by its global arrival order (a list of
    queue entries); a producer-side `send` either appends one entry or
    fails with a disconnect error;
  * the `log` facade's global registration and the panic-hook slot live in
    an explicit `GlobalState` record, and a Rust panic (an `unwrap` of an
    `Err`) is surfaced as an `Option RustPanic` result.
-/

/-- Severity levels of the `log` crate (`log::Level`). -/
inductive Level
  | error
  | warn
  | info
  | debug
  | trace
  deriving DecidableEq

/-- Rust `Level::as_str()`: the upper-case tag text of a level. -/
def Level.asStr : Level → String
  | .error => "ERROR"
  | .warn => "WARN"
  | .info => "INFO"
  | .debug => "DEBUG"
  | .trace => "TRACE"

/-- Severity threshold of the `log` crate (`log::LevelFilter`), including `Off`. -/
inductive LevelFilter
  | off
  | error
  | warn
  | info
  | debug
  | trace
  deriving DecidableEq

/-- The two output streams (`enum OutputChannel` in lib.rs). -/
inductive OutputChannel
  | standard
  | error
  deriving DecidableEq

/-- Embedding of `impl From<Level> for OutputChannel`: `Error` goes to the
error stream, every other level to the standard stream. -/
def OutputChannel.ofLevel : Level → OutputChannel
  | .error => .error
  | _ => .standard

/-- Styles applied by the code through the `colored` crate. -/
inductive Style
  | dimmed
  | white
  | blue
  | yellow
  | redBold
  deriving DecidableEq

/-- ANSI escape introducer of each style, as produced by `colored`. -/
def Style.code : Style → String
  | .dimmed => "\x1b[2m"
  | .white => "\x1b[37m"
  | .blue => "\x1b[34m"
  | .yellow => "\x1b[33m"
  | .redBold => "\x1b[1;31m"

/-- A piece of text together with the style the code applied to it. -/
structure Styled where
  text : String
  style : Style
  deriving DecidableEq

/-- Rendering of a styled string into the plain string Rust interpolates. -/
def Styled.render (s : Styled) : String :=
  s.style.code ++ s.text ++ "\x1b[0m"

/-- Rust's `format!("{string:<7}")`: left-align, pad on the right with
spaces to a minimum width of 7 characters (longer text is untouched). -/
def padTo7 (s : String) : String :=
  if s.length < 7 then s ++ String.mk (List.replicate (7 - s.length) ' ') else s

/-- Embedding of `get_formatted_level`: bracket the tag text, pad it to a
minimum width of 7, and pick the style by matching the tag text; the
catch-all arm of the Rust `match` is bold red. -/
def get_formatted_level (level : String) : Styled :=
  let string := padTo7 ("[" ++ level ++ "]")
  if level = "TRACE" then ⟨string, .dimmed⟩
  else if level = "DEBUG" then ⟨string, .white⟩
  else if level = "INFO" then ⟨string, .blue⟩
  else if level = "WARN" then ⟨string, .yellow⟩
  else if level = "ERROR" then ⟨string, .redBold⟩
  else if level = "PANIC" then ⟨string, .redBold⟩
  else ⟨string, .redBold⟩

/-- The plain string `get_formatted_level` actually returns in Rust (the
styled text rendered through `colored`). -/
def get_formatted_level_rendered (level : String) : String :=
  (get_formatted_level level).render

/-- Model of Rust `str::starts_with`: character-sequence comparison. -/
def strStartsWith (s pre : String) : Bool :=
  pre.data.isPrefixOf s.data

/-- The logger (`struct Logger(Vec<String>, Sender<..>)`): the module-filter
list; the channel sender is modelled separately by `channelSend`. -/
structure Logger where
  modules : List String
  deriving DecidableEq

/-- An entry of the mpsc queue: output channel plus fully formatted line. -/
abbrev QueueEntry := OutputChannel × String

/-- Error returned by `Sender::send` when the receiver is gone. -/
inductive SendError
  | disconnected
  deriving DecidableEq

/-- Producer-side `send` on the channel: succeeds when the consumer is
alive, otherwise fails with a disconnect error. -/
def channelSend (receiverAlive : Bool) (_e : QueueEntry) : Except SendError Unit :=
  if receiverAlive then .ok () else .error .disconnected

/-- A log record as delivered by the `log` facade: target module, level and
already-rendered message (`record.args()`). -/
structure LogRecord where
  target : String
  level : Level
  message : String
  deriving DecidableEq

/-- Embedding of `Logger::enabled`: true when the filter list is empty;
otherwise the loop over the list returns true at the first entry that
equals the target or whose text followed by `"::"` starts the target. -/
def Logger.enabled (l : Logger) (target : String) : Bool :=
  if l.modules.isEmpty then true
  else l.modules.any (fun m => target == m || strStartsWith target (m ++ "::"))

/-- A Rust panic, here only ever the `unwrap` of an `Err`. -/
inductive RustPanic
  | unwrapFailed
  deriving DecidableEq

/-- Embedding of `Logger::log`: when the record's target is enabled, build
the queue entry (channel from the level, line `ts level message`) and send
it, discarding a send failure with `.ok()`; otherwise do nothing. The
result is the list of entries that reached the queue; the `Except` layer
records that the function itself never panics or errors. -/
def Logger.log (l : Logger) (receiverAlive : Bool) (ts : String) (r : LogRecord) :
    Except RustPanic (List QueueEntry) :=
  if l.enabled r.target then
    let entry : QueueEntry :=
      (OutputChannel.ofLevel r.level,
        ts ++ " " ++ get_formatted_level_rendered r.level.asStr ++ " " ++ r.message)
    match channelSend receiverAlive entry with
    | .ok () => .ok [entry]
    | .error _ => .ok []
  else .ok []

/-- The payload carried by a Rust panic, as the hook inspects it: a static
string slice, an owned `String`, or anything else. -/
inductive PanicPayload
  | staticStr (s : String)
  | ownedString (s : String)
  | other
  deriving DecidableEq

/-- The line the panic hook formats from the payload: both string payload
forms interpolate the payload text, the catch-all arm uses the fixed
fallback text exactly as written in lib.rs. -/
def panicHookLine (ts : String) (payload : PanicPayload) : String :=
  match payload with
  | .staticStr s => ts ++ " " ++ get_formatted_level_rendered "PANIC" ++ " " ++ s
  | .ownedString s => ts ++ " " ++ get_formatted_level_rendered "PANIC" ++ " " ++ s
  | .other =>
      ts ++ " " ++ get_formatted_level_rendered "PANIC" ++ " " ++ "A panic occurred! Exitting..."

/-- Embedding of the closure `init` installs with `panic::set_hook`: return
immediately when the captured filter is `Off`; otherwise format the payload
and send the line to the error channel, discarding a send failure. The
logger fetched from the global cell is passed in but, like in the code,
only its sender is touched — the module filter plays no part. The result
is the list of entries that reached the queue. -/
def panicHook (filter : LevelFilter) ( _lgr : Logger) (receiverAlive : Bool)
    (ts : String) (payload : PanicPayload) : List QueueEntry :=
  if filter == LevelFilter.off then []
  else
    let line := panicHookLine ts payload
    match channelSend receiverAlive (OutputChannel.error, line) with
    | .ok () => [(OutputChannel.error, line)]
    | .error _ => []

/-- Process-wide mutable state touched by `init`: the `LOGGER` once-cell,
the `log` facade's registration flag and max level, and the panic-hook
slot (a hook is identified by the filter it captured). -/
structure GlobalState where
  logger : Option Logger
  loggerRegistered : Bool
  maxLevel : LevelFilter
  hook : Option LevelFilter
  deriving DecidableEq

/-- State before any initialization: empty cell, nothing registered, max
level `Off` (the `log` crate's default), no hook installed. -/
def GlobalState.initial : GlobalState :=
  ⟨none, false, LevelFilter.off, none⟩

/-- Embedding of `init`. Step 1: `LOGGER.set(..).ok()` fills the cell only
when it is empty and discards the failure otherwise. Step 2:
`log::set_logger(..).map(|()| log::set_max_level(filter)).unwrap()` —
when a logger is already registered this returns `Err`, so the `unwrap`
panics and the function aborts with the state unchanged; otherwise the
registration and max level are recorded and the panic hook capturing
`filter` is installed. -/
def init (filter : LevelFilter) (modules : List String) (st : GlobalState) :
    GlobalState × Option RustPanic :=
  let st1 := match st.logger with
    | none => { st with logger := some ⟨modules⟩ }
    | some _ => st
  if st1.loggerRegistered then
    (st1, some .unwrapFailed)
  else
    ({ st1 with loggerRegistered := true, maxLevel := filter, hook := some filter }, none)

/-- State of the consumer thread: lines written so far to each stream, and
the combined write trace in global order. -/
structure StreamState where
  stdOut : List String
  errOut : List String
  combined : List QueueEntry
  deriving DecidableEq

/-- One iteration of the consumer loop in `Logger::new`: select the stream
by the entry's channel and write the line there (write and flush failures
are ignored and do not alter control flow). -/
def consumerStep (st : StreamState) (e : QueueEntry) : StreamState :=
  match e.1 with
  | .standard => { st with stdOut := st.stdOut ++ [e.2], combined := st.combined ++ [e] }
  | .error => { st with errOut := st.errOut ++ [e.2], combined := st.combined ++ [e] }

/-- The consumer thread's whole run over the channel's arrival sequence. -/
def consumerRun (entries : List QueueEntry) : StreamState :=
  entries.foldl consumerStep ⟨[], [], []⟩

/-- Infix search on character sequences: the pattern occurs as a
contiguous run somewhere in the list. -/
def listIsInfixOf : List Char → List Char → Bool
  | pat, [] => pat.isEmpty
  | pat, c :: rest => pat.isPrefixOf (c :: rest) || listIsInfixOf pat rest

/-- Model of Rust `str::contains`: infix search on character sequences. -/
def containsSubstr (s pat : String) : Bool :=
  listIsInfixOf pat.data s.data

/-- Helper: `Logger::enabled` returns true exactly when the filter list is
empty or some entry matches the target by equality or by the `"::"`
hierarchy rule. -/
lemma enabled_iff (ms : List String) (target : String) :
    Logger.enabled ⟨ms⟩ target = true ↔
      (ms = [] ∨ ∃ m ∈ ms, target = m ∨ strStartsWith target (m ++ "::") = true) := by
  cases ms with
  | nil => simp [Logger.enabled]
  | cons m rest =>
    simp [Logger.enabled, List.any_eq_true, beq_iff_eq]

/-- Helper: the consumer loop appends each received entry, in order, to the
combined write trace. -/
lemma consumer_foldl_combined (st : StreamState) (es : List QueueEntry) :
    (es.foldl consumerStep st).combined = st.combined ++ es := by
  induction es generalizing st with
  | nil => simp
  | cons e rest ih =>
    cases e with
    | mk c line => cases c <;> simp [consumerStep, ih]

/-- C5: the severity-to-channel mapping is a pure total Lean function by
construction; `Error` maps to the error stream and each of `Trace`,
`Debug`, `Info` and `Warn` maps to the standard stream. -/
theorem level_to_channel_mapping :
    OutputChannel.ofLevel Level.error = OutputChannel.error ∧
    OutputChannel.ofLevel Level.trace = OutputChannel.standard ∧
    OutputChannel.ofLevel Level.debug = OutputChannel.standard ∧
    OutputChannel.ofLevel Level.info = OutputChannel.standard ∧
    OutputChannel.ofLevel Level.warn = OutputChannel.standard := by
  refine ⟨rfl, rfl, rfl, rfl, rfl⟩

/-- C2: `enabled(origin)` is true iff the filter set is empty, or the
origin equals an entry, or the origin starts with an entry followed by
`"::"`; in particular it is true for the origin equal to a configured
entry and for a `::`-descendant of it, and false for `"prefixother"`
against the entry `"prefix"`. Side-effect freedom holds by construction:
`Logger.enabled` is a pure function. -/
theorem enabled_spec :
    (∀ (l : Logger) (target : String),
      l.enabled target = true ↔
        (l.modules = [] ∨
          ∃ m ∈ l.modules, target = m ∨ strStartsWith target (m ++ "::") = true)) ∧
    (∀ p : String, Logger.enabled ⟨[p]⟩ p = true) ∧
    (∀ p : String, Logger.enabled ⟨[p]⟩ (p ++ "::x::y") = true) ∧
    Logger.enabled ⟨["prefix"]⟩ "prefixother" = false := by
  refine ⟨?_, ?_, ?_, by decide⟩
  · intro l target
    cases l with
    | mk ms => exact enabled_iff ms target
  · intro p
    rw [enabled_iff]
    exact Or.inr ⟨p, by simp, Or.inl rfl⟩
  · intro p
    rw [enabled_iff]
    refine Or.inr ⟨p, by simp, Or.inr ?_⟩
    simp [strStartsWith, List.isPrefixOf_iff_prefix, String.data_append,
      List.prefix_append_right_inj]

/-- C10: with a non-empty filter list containing the empty string, the
empty entry does not match every origin: `enabled` holds exactly for the
empty origin, an origin starting with `"::"`, or an origin matched by some
non-empty entry; in particular `"app"` is rejected by the filter list
`[""]`. -/
theorem enabled_empty_string_entry (ms : List String) (target : String) (h : "" ∈ ms) :
    (Logger.enabled ⟨ms⟩ target = true ↔
      (target = "" ∨ strStartsWith target "::" = true ∨
        ∃ m ∈ ms, m ≠ "" ∧ (target = m ∨ strStartsWith target (m ++ "::") = true))) ∧
    Logger.enabled ⟨[""]⟩ "app" = false := by
  constructor
  · rw [enabled_iff]
    have hne : ms ≠ [] := by rintro rfl; simp at h
    simp only [hne, false_or]
    constructor
    · rintro ⟨m, hm, hc⟩
      by_cases hm0 : m = ""
      · subst hm0
        rcases hc with hc | hc
        · exact Or.inl hc
        · exact Or.inr (Or.inl (by simpa using hc))
      · exact Or.inr (Or.inr ⟨m, hm, hm0, hc⟩)
    · rintro (rfl | hs | ⟨m, hm, hm0, hc⟩)
      · exact ⟨"", h, Or.inl rfl⟩
      · exact ⟨"", h, Or.inr (by simpa using hs)⟩
      · exact ⟨m, hm, hc⟩
  · decide

/-- Witness for C10 at the filter list containing only the empty string
and the origin `"app"`. -/
theorem enabled_empty_string_entry_witness :
    ((Logger.enabled ⟨[""]⟩ "app" = true ↔
      ("app" = "" ∨ strStartsWith "app" "::" = true ∨
        ∃ m ∈ [""], m ≠ "" ∧ ("app" = m ∨ strStartsWith "app" (m ++ "::") = true))) ∧
     Logger.enabled ⟨[""]⟩ "app" = false) :=
  enabled_empty_string_entry [""] "app" (by decide)

/-- C7: with the threshold `Off`, the panic hook sends nothing, whatever
the logger, channel state, timestamp and payload are. -/
theorem panic_hook_off_is_silent :
    ∀ (lgr : Logger) (alive : Bool) (ts : String) (p : PanicPayload),
      panicHook LevelFilter.off lgr alive ts p = [] := by
  intro lgr alive ts p
  rfl

/-- C8: with any threshold other than `Off`, the panic hook enqueues the
formatted line to the error channel; its output never depends on the
logger's module-filter list; the message is formatted with the synthetic
`PANIC` tag, whose styling is bold red, identical to `ERROR`'s. -/
theorem panic_hook_bypasses_filter (f : LevelFilter) (h : f ≠ LevelFilter.off) :
    (∀ (lgr : Logger) (ts : String) (p : PanicPayload),
      panicHook f lgr true ts p = [(OutputChannel.error, panicHookLine ts p)]) ∧
    (∀ (lgr lgr2 : Logger) (alive : Bool) (ts : String) (p : PanicPayload),
      panicHook f lgr alive ts p = panicHook f lgr2 alive ts p) ∧
    (∀ ts s : String, panicHookLine ts (PanicPayload.staticStr s) =
      ts ++ " " ++ get_formatted_level_rendered "PANIC" ++ " " ++ s) ∧
    (get_formatted_level "PANIC").style = Style.redBold ∧
    (get_formatted_level "PANIC").style = (get_formatted_level "ERROR").style := by
  have hb : (f == LevelFilter.off) = false := by
    rw [beq_eq_false_iff_ne]; exact h
  refine ⟨?_, ?_, ?_, by decide, by decide⟩
  · intro lgr ts p
    simp [panicHook, hb, channelSend]
  · intro lgr lgr2 alive ts p
    rfl
  · intro ts s
    rfl

/-- Witness for C8 at threshold `Info`, a non-trivial filter list, and the
static-string payload `"boom"`. -/
theorem panic_hook_bypasses_filter_witness :
    panicHook LevelFilter.info ⟨["app"]⟩ true "T" (PanicPayload.staticStr "boom") =
      [(OutputChannel.error, panicHookLine "T" (PanicPayload.staticStr "boom"))] :=
  (panic_hook_bypasses_filter LevelFilter.info (by decide)).1 ⟨["app"]⟩ "T"
    (PanicPayload.staticStr "boom")

/-- C9: `Logger::log` always returns normally (`Except.ok`): when the
target is not enabled the event is dropped with no enqueue, and when the
channel send fails (receiver gone) the failure is swallowed and nothing is
enqueued. -/
theorem log_is_total_and_filters (lgr : Logger) (alive : Bool) (ts : String) (r : LogRecord) :
    (∃ q, lgr.log alive ts r = Except.ok q) ∧
    (lgr.enabled r.target = false → lgr.log alive ts r = Except.ok []) ∧
    (alive = false → lgr.log alive ts r = Except.ok []) := by
  refine ⟨?_, ?_, ?_⟩
  · by_cases he : lgr.enabled r.target <;> cases alive <;>
      simp [Logger.log, channelSend, he]
  · intro he
    simp [Logger.log, he]
  · rintro rfl
    by_cases he : lgr.enabled r.target <;> simp [Logger.log, channelSend, he]

/-- Witness for C9 at a record whose target fails the module filter while
the channel is also closed. -/
theorem log_is_total_and_filters_witness :
    Logger.log ⟨["app"]⟩ false "T" ⟨"other", Level.info, "m"⟩ = Except.ok [] :=
  (log_is_total_and_filters ⟨["app"]⟩ false "T" ⟨"other", Level.info, "m"⟩).2.1 (by decide)

/-- C4: the consumer thread writes entries in exactly the order they
arrived at the channel — the combined write trace across both streams
equals the arrival sequence — so an entry enqueued earlier (in the
channel's arrival order, which mpsc makes consistent with the
completes-before order of synchronized sends) is written strictly before
a later one, and any producer's subsequence of the arrival order is
preserved in the write order. -/
theorem consumer_write_order :
    ∀ entries : List QueueEntry,
      (consumerRun entries).combined = entries ∧
      ∀ producerSeq : List QueueEntry,
        producerSeq.Sublist entries → producerSeq.Sublist (consumerRun entries).combined := by
  intro entries
  have hc : (consumerRun entries).combined = entries := by
    simpa [consumerRun] using consumer_foldl_combined ⟨[], [], []⟩ entries
  exact ⟨hc, fun ps hps => by rw [hc]; exact hps⟩

/-- Witness for C4 at a two-entry arrival sequence spanning both streams,
with a one-producer subsequence. -/
theorem consumer_write_order_witness :
    (consumerRun [(OutputChannel.standard, "a"), (OutputChannel.error, "b")]).combined =
      [(OutputChannel.standard, "a"), (OutputChannel.error, "b")] ∧
    List.Sublist [(OutputChannel.error, "b")]
      (consumerRun [(OutputChannel.standard, "a"), (OutputChannel.error, "b")]).combined := by
  refine ⟨(consumer_write_order _).1, (consumer_write_order _).2 _ ?_⟩
  exact List.Sublist.cons _ (List.Sublist.refl _)

/-- C1 (corrected): a second call to `init` is not a no-op returning
normally — `log::set_logger` fails because a logger is already registered
and the `unwrap` panics. The concrete double initialization below returns
a panic instead of returning normally. -/
theorem init_second_call_panics_cex :
    (init LevelFilter.debug [] (init LevelFilter.info ["app"] GlobalState.initial).1).2 =
      some RustPanic.unwrapFailed := rfl

/-- C1 (amended): after a first successful `init`, every later call (with
any arguments) panics at the `unwrap` of the logger-registration result
and leaves the global state unchanged, so the filter set and severity
threshold from the first call continue to govern behavior. -/
theorem init_second_call_panics (f1 f2 : LevelFilter) (m1 m2 : List String) :
    (init f2 m2 (init f1 m1 GlobalState.initial).1).2 = some RustPanic.unwrapFailed ∧
    (init f2 m2 (init f1 m1 GlobalState.initial).1).1 = (init f1 m1 GlobalState.initial).1 := by
  constructor <;> rfl

/-- C3 (corrected): the fallback line the hook enqueues for a non-string
payload carries the text `"A panic occurred! Exitting..."` as written in
lib.rs, which does not contain the claim's `"A panic occurred!
Exiting..."`. -/
theorem panic_fallback_text_cex :
    panicHook LevelFilter.info ⟨[]⟩ true "" PanicPayload.other =
      [(OutputChannel.error, panicHookLine "" PanicPayload.other)] ∧
    containsSubstr (panicHookLine "" PanicPayload.other) "A panic occurred! Exiting..." = false ∧
    containsSubstr (panicHookLine "" PanicPayload.other) "A panic occurred! Exitting..." = true := by
  decide

/-- C3 (amended): when the payload is neither string form, the hook
formats and enqueues the fixed fallback message
`"A panic occurred! Exitting..."` (the code's spelling) to the error
output. -/
theorem panic_fallback_text (f : LevelFilter) (lgr : Logger) (ts : String)
    (h : f ≠ LevelFilter.off) :
    panicHook f lgr true ts PanicPayload.other =
      [(OutputChannel.error,
        ts ++ " " ++ get_formatted_level_rendered "PANIC" ++ " " ++
          "A panic occurred! Exitting...")] := by
  have hb : (f == LevelFilter.off) = false := by
    rw [beq_eq_false_iff_ne]; exact h
  simp [panicHook, panicHookLine, channelSend, hb]

/-- Witness for the amended C3 at threshold `Info`. -/
theorem panic_fallback_text_witness :
    panicHook LevelFilter.info ⟨[]⟩ true "T" PanicPayload.other =
      [(OutputChannel.error,
        "T" ++ " " ++ get_formatted_level_rendered "PANIC" ++ " " ++
          "A panic occurred! Exitting...")] :=
  panic_fallback_text LevelFilter.info ⟨[]⟩ "T" (by decide)

/-- C6 (corrected): the tag for `"INFO"` is the 7-character `"[INFO] "`
(one trailing pad space), not the 8-character `"[INFO]  "` the claim
displays. -/
theorem level_tag_info_cex :
    (get_formatted_level "INFO").text = "[INFO] " ∧
    ¬ (get_formatted_level "INFO").text = "[INFO]  " := by
  decide

/-- C6 (amended): every rendered tag is the bracketed text padded to a
minimum width of 7 characters; `"INFO"` yields `"[INFO] "` with blue
styling, `"TRACE"` is dimmed, `"DEBUG"` neutral (white), `"WARN"` yellow,
`"ERROR"` and `"PANIC"` bold red, and every tag text other than the four
non-red ones gets the bold-red default styling. -/
theorem level_tag_rendering :
    (∀ s : String, (get_formatted_level s).text = padTo7 ("[" ++ s ++ "]")) ∧
    get_formatted_level "INFO" = ⟨"[INFO] ", Style.blue⟩ ∧
    (get_formatted_level "TRACE").style = Style.dimmed ∧
    (get_formatted_level "DEBUG").style = Style.white ∧
    (get_formatted_level "WARN").style = Style.yellow ∧
    (get_formatted_level "ERROR").style = Style.redBold ∧
    (get_formatted_level "PANIC").style = Style.redBold ∧
    (∀ s : String, s ≠ "TRACE" → s ≠ "DEBUG" → s ≠ "INFO" → s ≠ "WARN" →
      (get_formatted_level s).style = Style.redBold) := by
  refine ⟨?_, by decide, by decide, by decide, by decide, by decide, by decide, ?_⟩
  · intro s
    simp only [get_formatted_level]
    split_ifs <;> rfl
  · intro s h1 h2 h3 h4
    simp only [get_formatted_level]
    split_ifs <;> first | rfl | simp_all

/-- Witness for the amended C6 at the unrecognized tag text `"FATAL"`. -/
theorem level_tag_rendering_witness :
    (get_formatted_level "FATAL").style = Style.redBold :=
  level_tag_rendering.2.2.2.2.2.2.2 "FATAL" (by decide) (by decide) (by decide) (by decide)
